import Mathlib

/-!
Verification development for the VitalSource PDF downloader
(`src/content.js`, the Orchestrator, and `src/iframe.js`, the Frame Agent).

The shallow embedding below translates the relevant source functions into
executable Lean definitions:

* Frame Agent (`iframe.js`): `findPageImage`, `hasPageImage`, `captureImage`,
  and the message listener `frameAgentHandle`.
* Orchestrator (`content.js`): `sanitizeFilename`, `getCurrentPage`
  (from `getCurrentPageInfo`), the pending-request lifecycle of
  `captureCurrentPage` (`stepCapture` over `CaptureReqState`), the
  pending-request lifecycle of `pingIframe` (`stepPing` over `PingReqState`
  plus the synchronous prefix `pingIframeStart`), and the pagination loop of
  `startCapture` (`runLoop` driven by per-iteration oracles).

Asynchronous callbacks (message listener firings and timer firings) are
modelled as explicit events consumed by step functions; the environment
values read at resolution time (the page-number input and the clock) travel
on the events, exactly as the source reads them inside the resolve wrapper.
-/

namespace VitalSourcePdf

/-! ## Frame Agent: page image location (iframe.js, findPageImage) -/

/-- Which of the `load` / `error` / 10 s internal timeout callbacks fires
first for an image that is not yet complete. -/
inductive LoadEvent
  | onload
  | onerror
  | loadTimeout
deriving DecidableEq

/-- An `img` element as the Frame Agent sees it: natural dimensions, the
`complete` flag, which load callback would fire, and the raster payload
`canvas.toDataURL` would produce for it. -/
structure Img where
  naturalWidth : Nat
  naturalHeight : Nat
  complete : Bool
  loadEvent : LoadEvent
  rasterData : String
deriving DecidableEq

/-- A frame document: the element matched by `img#pbk-page` (if any) and all
`img` elements in document order (as `querySelectorAll` returns them). -/
structure FrameDoc where
  pbkPage : Option Img
  images : List Img
deriving DecidableEq

/-- `findPageImage` from iframe.js: the primary selector `img#pbk-page`,
else the first image whose natural width and height both exceed 400. -/
def findPageImage (d : FrameDoc) : Option Img :=
  match d.pbkPage with
  | some img => some img
  | none =>
      d.images.find? (fun img =>
        decide (400 < img.naturalWidth) && decide (400 < img.naturalHeight))

/-- `hasPageImage` from iframe.js. -/
def hasPageImage (d : FrameDoc) : Bool :=
  (findPageImage d).isSome

/-- The payload a Frame Agent's successful capture response carries:
exactly the fields `data`, `width`, `height` returned by `captureImage`. -/
structure CapturePayload where
  data : String
  width : Nat
  height : Nat
deriving DecidableEq

/-- `captureImage` from iframe.js: if the image is not complete (or has zero
natural width) it awaits load/error with a 10 s internal timeout; on success
it draws the image on a canvas and returns data, width, height. -/
def captureImage (img : Img) : Except String CapturePayload :=
  if !img.complete || img.naturalWidth == 0 then
    match img.loadEvent with
    | .onload =>
        .ok { data := img.rasterData, width := img.naturalWidth, height := img.naturalHeight }
    | .onerror => .error "Image failed to load"
    | .loadTimeout => .error "Image load timeout"
  else
    .ok { data := img.rasterData, width := img.naturalWidth, height := img.naturalHeight }

/-- Broadcast request messages of the cross-frame protocol. -/
inductive FrameMsg
  | capturePage (requestId : String)
  | ping (requestId : String)
deriving DecidableEq

/-- Messages a Frame Agent sends up to the Orchestrator. -/
inductive ParentMsg
  | pageCaptured (requestId : String) (success : Bool)
      (data : Option CapturePayload) (error : Option String)
  | pong (requestId : String) (hasImage : Bool) (url : String)
deriving DecidableEq

/-- What one firing of the Frame Agent's message listener emits. -/
structure FrameAgentOutput where
  toParent : List ParentMsg
  toChildren : List FrameMsg
deriving DecidableEq

/-- The Frame Agent's message listener (iframe.js): on `VS_CAPTURE_PAGE`
it answers only when `findPageImage` matches, and always forwards the
broadcast to its children; on `VS_PING` it always answers with a
`VS_PONG` carrying `hasPageImage` and its URL, and forwards. -/
def frameAgentHandle (d : FrameDoc) (url : String) (msg : FrameMsg) : FrameAgentOutput :=
  match msg with
  | .capturePage rid =>
      match findPageImage d with
      | some img =>
          match captureImage img with
          | .ok payload => ⟨[.pageCaptured rid true (some payload) none], [msg]⟩
          | .error e => ⟨[.pageCaptured rid false none (some e)], [msg]⟩
      | none => ⟨[], [msg]⟩
  | .ping rid => ⟨[.pong rid (hasPageImage d) url], [msg]⟩

/-! ## Orchestrator helpers (content.js) -/

/-- `getCurrentPageInfo().current` from content.js:
`parseInt(pageInput?.value, 10) || 1`. `none` models a missing input or an
unparsable value (`NaN`), and `0` is falsy, so both fall back to 1. -/
def getCurrentPage (pageInputValue : Option Nat) : Nat :=
  match pageInputValue with
  | some n => if n == 0 then 1 else n
  | none => 1

/-- JavaScript `a || dflt` on an optional string: `undefined` and the empty
string are falsy. -/
def jsOr (o : Option String) (dflt : String) : String :=
  match o with
  | some s => if s == "" then dflt else s
  | none => dflt

/-! ## Filename sanitization (content.js, sanitizeFilename) -/

/-- The character class `\s` of JavaScript regular expressions. -/
def isJsWhitespace (c : Char) : Bool :=
  c == ' ' || c == '\t' || c == '\n' || c == '\r' ||
  c.toNat == 0x0b || c.toNat == 0x0c || c.toNat == 0xa0 || c.toNat == 0x1680 ||
  (0x2000 ≤ c.toNat && c.toNat ≤ 0x200a) ||
  c.toNat == 0x2028 || c.toNat == 0x2029 || c.toNat == 0x202f ||
  c.toNat == 0x205f || c.toNat == 0x3000 || c.toNat == 0xfeff

/-- The character class `[a-z0-9\s\-_]` with the `i` flag: what the first
`replace` of `sanitizeFilename` keeps. -/
def keepChar (c : Char) : Bool :=
  c.isAlpha || c.isDigit || isJsWhitespace c || c == '-' || c == '_'

/-- Characters allowed in a sanitized filename: letters, digits, hyphen,
underscore. -/
def allowedChar (c : Char) : Bool :=
  c.isAlpha || c.isDigit || c == '-' || c == '_'

/-- `replace(/[^a-z0-9\s\-_]/gi, '')`: drop every character outside the
kept class. -/
def stripDisallowed (s : List Char) : List Char :=
  s.filter keepChar

/-- Worker for `replace(/\s+/g, '_')`: the flag records whether the previous
character was part of a whitespace run (so the run contributes exactly one
underscore). -/
def collapseWsAux : Bool → List Char → List Char
  | _, [] => []
  | prevWs, c :: cs =>
      if isJsWhitespace c then
        if prevWs then collapseWsAux true cs
        else '_' :: collapseWsAux true cs
      else c :: collapseWsAux false cs

/-- `replace(/\s+/g, '_')`: each maximal whitespace run becomes one
underscore. -/
def collapseWs (s : List Char) : List Char :=
  collapseWsAux false s

/-- `sanitizeFilename` from content.js:
`name.replace(/[^a-z0-9\s\-_]/gi, '').replace(/\s+/g, '_').substring(0, 50)`. -/
def sanitizeFilename (s : List Char) : List Char :=
  (collapseWs (stripDisallowed s)).take 50

/-! ## Pending capture request lifecycle (content.js, captureCurrentPage
and the VS_PAGE_CAPTURED branch of the message listener) -/

/-- The timeout passed to `setTimeout` in `captureCurrentPage`. -/
def CAPTURE_TIMEOUT_MS : Nat := 15000

/-- The timeout passed to `setTimeout` in `pingIframe`. -/
def PING_TIMEOUT_MS : Nat := 5000

/-- A capture result as resolved by the Orchestrator: the Frame Agent's
payload plus the two fields stamped in the resolve wrapper. -/
structure CaptureResult where
  data : String
  width : Nat
  height : Nat
  pageNumber : Nat
  timestamp : Nat
deriving DecidableEq

/-- The stamping performed inside the resolve wrapper of
`captureCurrentPage`: `data.timestamp = Date.now()` and
`data.pageNumber = getCurrentPageInfo().current`. -/
def stampCapture (p : CapturePayload) (pageInput : Option Nat) (now : Nat) : CaptureResult :=
  { data := p.data, width := p.width, height := p.height,
    pageNumber := getCurrentPage pageInput, timestamp := now }

/-- How a pending request's promise was settled. -/
inductive Settled
  | resolvedWith (r : CaptureResult)
  | rejectedWith (e : String)
deriving DecidableEq

/-- State of one registered capture request: whether its requestId is still
in `state.pendingCaptures`, the `resolved` local flag, whether its timer is
armed, the first settlement, and how many settlement calls happened. -/
structure CaptureReqState where
  pendingEntry : Bool
  resolvedFlag : Bool
  timeoutActive : Bool
  outcome : Option Settled
  settleCount : Nat
deriving DecidableEq

/-- State right after `captureCurrentPage` registers the entry and arms the
15 s timer. -/
def initCaptureReq : CaptureReqState :=
  { pendingEntry := true, resolvedFlag := false, timeoutActive := true,
    outcome := none, settleCount := 0 }

/-- One settlement call on the promise: the first value wins, every call is
counted. -/
def settleWith (s : CaptureReqState) (v : Settled) : CaptureReqState :=
  { s with
    outcome := (match s.outcome with | some o => some o | none => some v),
    settleCount := s.settleCount + 1 }

/-- Events that can reach a registered capture request: a `VS_PAGE_CAPTURED`
message carrying its requestId (with the page-number input and the clock as
read at that moment), or the 15 s timer firing. -/
inductive CaptureEvent
  | response (success : Bool) (data : CapturePayload) (error : Option String)
      (pageInput : Option Nat) (now : Nat)
  | timeoutFires
deriving DecidableEq

/-- One event against a capture request, following content.js exactly: the
listener acts only when the entry is present, deletes it, then calls the
resolve/reject wrapper (guarded by `resolved`, clearing the timer, stamping
on resolve); the timer callback returns if `resolved`, else deletes the
entry and rejects with `Capture timeout`. -/
def stepCapture (s : CaptureReqState) (e : CaptureEvent) : CaptureReqState :=
  match e with
  | .response success data error pageInput now =>
      if s.pendingEntry then
        let s1 := { s with pendingEntry := false }
        if s1.resolvedFlag then s1
        else
          let s2 := { s1 with resolvedFlag := true, timeoutActive := false }
          if success then settleWith s2 (.resolvedWith (stampCapture data pageInput now))
          else settleWith s2 (.rejectedWith (jsOr error "Capture failed"))
      else s
  | .timeoutFires =>
      if s.timeoutActive then
        let s1 := { s with timeoutActive := false }
        if s1.resolvedFlag then s1
        else settleWith { s1 with pendingEntry := false } (.rejectedWith "Capture timeout")
      else s

/-- A whole run of events against one registered capture request. -/
def runCapture (evs : List CaptureEvent) : CaptureReqState :=
  evs.foldl stepCapture initCaptureReq

/-! ## Pending ping request lifecycle (content.js, pingIframe and the
VS_PONG branch of the message listener) -/

/-- One recorded readiness announcement (`state.readyFrames` entry). -/
structure ReadyFrame where
  hasImage : Bool
  url : String
deriving DecidableEq

/-- The error message `pingIframe` rejects with. -/
def PROBE_FAILURE_MSG : String := "No iframe with page image found. Try reloading."

/-- State of one registered ping request. -/
structure PingReqState where
  pendingEntry : Bool
  timeoutActive : Bool
  outcome : Option (Except String ReadyFrame)
  settleCount : Nat

/-- State right after `pingIframe` registers the entry and arms the 5 s
timer. -/
def initPingReq : PingReqState :=
  { pendingEntry := true, timeoutActive := true, outcome := none, settleCount := 0 }

/-- One settlement call on the ping promise. -/
def settlePing (s : PingReqState) (v : Except String ReadyFrame) : PingReqState :=
  { s with
    outcome := (match s.outcome with | some o => some o | none => some v),
    settleCount := s.settleCount + 1 }

/-- Events that can reach a registered ping request: a `VS_PONG` carrying
its requestId, or the 5 s timer firing (which reads `state.readyFrames` at
that moment). -/
inductive PingEvent
  | pong (hasImage : Bool) (url : String)
  | timeoutFires (readyFrames : List ReadyFrame)

/-- One event against a ping request, following content.js exactly: the
`VS_PONG` branch acts only when the entry is present AND `hasImage` is
truthy, deletes the entry and calls the resolve wrapper (clearing the
timer); the timer callback deletes the entry and falls back to
`readyFrames.find(f => f?.hasImage)`, resolving with it when found and
rejecting with the probe-failure error otherwise. -/
def stepPing (s : PingReqState) (e : PingEvent) : PingReqState :=
  match e with
  | .pong hasImage url =>
      if s.pendingEntry && hasImage then
        let s1 := { s with pendingEntry := false, timeoutActive := false }
        settlePing s1 (.ok ⟨hasImage, url⟩)
      else s
  | .timeoutFires readyFrames =>
      if s.timeoutActive then
        let s1 := { s with timeoutActive := false, pendingEntry := false }
        match readyFrames.find? (fun f => f.hasImage) with
        | some f => settlePing s1 (.ok f)
        | none => settlePing s1 (.error PROBE_FAILURE_MSG)
      else s

/-- A whole run of events against one registered ping request. -/
def runPing (evs : List PingEvent) : PingReqState :=
  evs.foldl stepPing initPingReq

/-- What the synchronous prefix of `pingIframe` does before any awaiting:
either it finds a recorded announcement with `hasImage` and returns it
immediately, or it registers a pending entry and broadcasts a `VS_PING`. -/
structure PingStart where
  immediateResult : Option ReadyFrame
  registered : Bool
  broadcast : List FrameMsg
deriving DecidableEq

/-- The synchronous prefix of `pingIframe` (content.js):
`state.readyFrames.find(f => f?.hasImage)` short-circuits; otherwise a
pending entry is registered and `VS_PING` is broadcast. -/
def pingIframeStart (readyFrames : List ReadyFrame) (requestId : String) : PingStart :=
  match readyFrames.find? (fun f => f.hasImage) with
  | some f => { immediateResult := some f, registered := false, broadcast := [] }
  | none => { immediateResult := none, registered := true, broadcast := [FrameMsg.ping requestId] }

/-- Modelled from the spec: the wording "the last known readiness
announcement" of §4.2, read as the most recently recorded announcement
reporting `hasImage = true`. Used only to compare the spec's wording with
what `pingIframe`'s timeout callback computes. -/
def lastImageAnnouncement (readyFrames : List ReadyFrame) : Option ReadyFrame :=
  (readyFrames.filter (fun f => f.hasImage)).getLast?

/-! ## Pagination capture loop (content.js, startCapture) -/

/-- What one `goToNextPage()` call does: advance, or throw
`Last page` (button disabled / aria-disabled), or throw
`No Next button` (button absent). -/
inductive NextPageResult
  | ok
  | lastPage
  | noButton
deriving DecidableEq

/-- The error message `goToNextPage` throws, if any. -/
def nextPageThrows : NextPageResult → Option String
  | .ok => none
  | .lastPage => some "Last page"
  | .noButton => some "No Next button"

/-- Environment of one loop iteration: the `state.isRunning` flag as read at
the top of the loop, the outcome of `captureCurrentPage()`, and the outcomes
of the in-try and in-catch `goToNextPage()` calls. -/
structure IterOracle where
  runningAtTop : Bool
  capture : Except String CaptureResult
  nextPage : NextPageResult
  recoverNext : NextPageResult

/-- The kind of the last `updateStatus` call, which is what the user sees
when the loop ends. -/
inductive LoopStatus
  | info
  | doneSuccess
  | errorStatus (msg : String)
deriving DecidableEq

/-- Loop state: the session list `state.capturedPages`, the local `captured`
counter, and the last status shown. -/
structure LoopState where
  pages : List CaptureResult
  captured : Nat
  lastStatus : LoopStatus
deriving DecidableEq

/-- How the loop ended. -/
inductive LoopExit
  | limitDone
  | lastPageDone
  | recoveryFailed
  | stopped
  | fuelOut
deriving DecidableEq

/-- Loop state at the top of `startCapture`'s while loop: `captured = 0`,
and the session list is empty because the action button only dispatches to
`startCapture` when `state.capturedPages.length === 0`. -/
def initLoopState : LoopState :=
  { pages := [], captured := 0, lastStatus := .info }

/-- The while loop of `startCapture`, one oracle per iteration:
`while (isRunning && captured < pageLimit)`, capture, push, `captured++`,
break with a success status at the page limit, `goToNextPage()`; in the
catch, `Last page` breaks with a success status, any other error shows an
error status and tries one recovery advance, breaking if that fails too.
An exhausted oracle list ends the run with `fuelOut`. -/
def runLoop (pageLimit : Nat) (s : LoopState) : List IterOracle → LoopState × LoopExit
  | [] => (s, .fuelOut)
  | o :: rest =>
      if o.runningAtTop = false then (s, .stopped)
      else if pageLimit ≤ s.captured then (s, .stopped)
      else
        match o.capture with
        | .ok pageData =>
            let s1 : LoopState :=
              { pages := s.pages ++ [pageData], captured := s.captured + 1,
                lastStatus := .info }
            if pageLimit ≤ s1.captured then
              ({ s1 with lastStatus := .doneSuccess }, .limitDone)
            else
              match nextPageThrows o.nextPage with
              | none => runLoop pageLimit s1 rest
              | some msg =>
                  if msg == "Last page" then
                    ({ s1 with lastStatus := .doneSuccess }, .lastPageDone)
                  else
                    let s2 := { s1 with lastStatus := .errorStatus msg }
                    match o.recoverNext with
                    | .ok => runLoop pageLimit s2 rest
                    | _ => (s2, .recoveryFailed)
        | .error e =>
            if e == "Last page" then
              ({ s with lastStatus := .doneSuccess }, .lastPageDone)
            else
              let s2 := { s with lastStatus := .errorStatus e }
              match o.recoverNext with
              | .ok => runLoop pageLimit s2 rest
              | _ => (s2, .recoveryFailed)

/-! ## Helper lemmas -/

theorem keepChar_split (c : Char) (h : keepChar c = true) :
    allowedChar c = true ∨ isJsWhitespace c = true := by
  simp only [keepChar, allowedChar, Bool.or_eq_true] at h ⊢
  tauto

theorem collapseWsAux_allowed (s : List Char) :
    ∀ (b : Bool), (∀ c ∈ s, keepChar c = true) →
      ∀ c ∈ collapseWsAux b s, allowedChar c = true := by
  induction s with
  | nil => intro b _ c hc; simp [collapseWsAux] at hc
  | cons a as ih =>
      intro b h c hc
      have ha := h a (List.mem_cons_self a as)
      have hrest : ∀ x ∈ as, keepChar x = true :=
        fun x hx => h x (List.mem_cons_of_mem a hx)
      cases hw : isJsWhitespace a with
      | true =>
          cases b with
          | true =>
              rw [show collapseWsAux true (a :: as) = collapseWsAux true as by
                simp [collapseWsAux, hw]] at hc
              exact ih true hrest c hc
          | false =>
              rw [show collapseWsAux false (a :: as) = '_' :: collapseWsAux true as by
                simp [collapseWsAux, hw]] at hc
              rcases List.mem_cons.mp hc with rfl | hc2
              · decide
              · exact ih true hrest c hc2
      | false =>
          rw [show collapseWsAux b (a :: as) = a :: collapseWsAux false as by
            simp [collapseWsAux, hw]] at hc
          rcases List.mem_cons.mp hc with rfl | hc2
          · rcases keepChar_split c ha with hok | hws
            · exact hok
            · rw [hws] at hw; cases hw
          · exact ih false hrest c hc2

/-! ## Claim theorems -/

/-- C8: for every input string, `sanitizeFilename` yields only letters,
digits, hyphens and underscores, of length at most 50 (whitespace runs
having been collapsed to single underscores by `collapseWs`), and the title
"Intro to C++: Vol. 2!" sanitizes to "Intro_to_C_Vol_2". -/
theorem C8_sanitizeFilename_ok :
    (∀ s : List Char,
      (sanitizeFilename s).all allowedChar = true ∧ (sanitizeFilename s).length ≤ 50) ∧
    sanitizeFilename ("Intro to C++: Vol. 2!".toList) = "Intro_to_C_Vol_2".toList := by
  refine ⟨fun s => ⟨?_, ?_⟩, by decide⟩
  · rw [List.all_eq_true]
    intro c hc
    have hc2 : c ∈ collapseWs (stripDisallowed s) := List.mem_of_mem_take hc
    exact collapseWsAux_allowed (stripDisallowed s) false
      (fun x hx => (List.mem_filter.mp hx).2) c hc2
  · show ((collapseWs (stripDisallowed s)).take 50).length ≤ 50
    rw [List.length_take]
    exact Nat.min_le_left _ _

/-- C7: when the 15000 ms capture timer fires on a still-pending capture
request (no matching response arrived), the request is rejected with the
distinct error "Capture timeout" and its entry leaves the pending map at
that moment. -/
theorem C7_capture_timeout_rejects :
    CAPTURE_TIMEOUT_MS = 15000 ∧
    (stepCapture initCaptureReq .timeoutFires).outcome
      = some (.rejectedWith "Capture timeout") ∧
    (stepCapture initCaptureReq .timeoutFires).pendingEntry = false ∧
    (stepCapture initCaptureReq .timeoutFires).settleCount = 1 :=
  ⟨rfl, rfl, rfl, rfl⟩

/-- C10: the first matching capture response settles the pending request
whatever its success flag is; a response flagged unsuccessful rejects at
once with that frame's error (`error || 'Capture failed'`), and a later
successful response for the same requestId leaves the state untouched. -/
theorem C10_first_response_settles (d dLater : CapturePayload) (e eLater : Option String)
    (pv pvLater : Option Nat) (t tLater : Nat) :
    (∀ success : Bool,
      (stepCapture initCaptureReq (.response success d e pv t)).settleCount = 1) ∧
    (stepCapture initCaptureReq (.response false d e pv t)).outcome
      = some (.rejectedWith (jsOr e "Capture failed")) ∧
    stepCapture (stepCapture initCaptureReq (.response false d e pv t))
        (.response true dLater eLater pvLater tLater)
      = stepCapture initCaptureReq (.response false d e pv t) := by
  refine ⟨fun success => ?_, rfl, rfl⟩
  cases success <;> rfl

/-- C9: a successful capture resolves with the Frame Agent's payload
(data, width, height) stamped by the Orchestrator at resolution time with
`pageNumber = getCurrentPage` of the host page indicator and
`timestamp = now`; the Frame Agent's `captureImage` itself returns only
data, width and height. -/
theorem C9_resolution_stamping :
    (∀ (p : CapturePayload) (pv : Option Nat) (t : Nat),
      (stepCapture initCaptureReq (.response true p none pv t)).outcome
        = some (.resolvedWith
            { data := p.data, width := p.width, height := p.height,
              pageNumber := getCurrentPage pv, timestamp := t })) ∧
    (∀ img : Img, img.complete = true → img.naturalWidth ≠ 0 →
      captureImage img
        = .ok { data := img.rasterData, width := img.naturalWidth,
                height := img.naturalHeight }) := by
  constructor
  · intro p pv t; rfl
  · intro img h1 h2
    simp [captureImage, h1, h2]

/-- A frame used by the C9 witness: a complete, large image. -/
def img0 : Img :=
  { naturalWidth := 600, naturalHeight := 800, complete := true,
    loadEvent := .onload, rasterData := "jpegdata" }

/-- Witness for C9 at a concrete payload and frame image. -/
theorem C9_resolution_stamping_witness :
    captureImage img0
      = .ok { data := "jpegdata", width := 600, height := 800 } ∧
    (stepCapture initCaptureReq
        (.response true ⟨"jpegdata", 600, 800⟩ none (some 7) 123)).outcome
      = some (.resolvedWith
          { data := "jpegdata", width := 600, height := 800,
            pageNumber := getCurrentPage (some 7), timestamp := 123 }) :=
  ⟨C9_resolution_stamping.2 img0 rfl (by decide),
   C9_resolution_stamping.1 ⟨"jpegdata", 600, 800⟩ (some 7) 123⟩

/-- A frame document in which the page-image location policy finds no
match. -/
def noImageFrame : FrameDoc := { pbkPage := none, images := [] }

/-- C6 counterexample: in a frame with no page image the listener still
answers a ping with a `VS_PONG` (carrying `hasImage = false`), so the claim
that no response is sent to ping requests fails. -/
theorem C6_counterexample :
    findPageImage noImageFrame = none ∧
    (frameAgentHandle noImageFrame "https://frame" (.ping "ping_1")).toParent
      = [.pong "ping_1" false "https://frame"] ∧
    (frameAgentHandle noImageFrame "https://frame" (.ping "ping_1")).toParent ≠ [] :=
  ⟨rfl, rfl, by decide⟩

/-- C6 amended: in a frame where the location policy finds no match, the
Frame Agent sends no response to capture requests, answers ping requests
with a `VS_PONG` reporting `hasImage = false`, and forwards both broadcasts
to its child frames. -/
theorem C6_amended_no_match (d : FrameDoc) (url rid : String)
    (h : findPageImage d = none) :
    (frameAgentHandle d url (.capturePage rid)).toParent = [] ∧
    (frameAgentHandle d url (.capturePage rid)).toChildren = [.capturePage rid] ∧
    (frameAgentHandle d url (.ping rid)).toParent = [.pong rid false url] ∧
    (frameAgentHandle d url (.ping rid)).toChildren = [.ping rid] := by
  refine ⟨?_, ?_, ?_, ?_⟩ <;> simp [frameAgentHandle, hasPageImage, h]

/-- Witness for the amended C6 at a concrete matchless frame. -/
theorem C6_amended_no_match_witness :
    (frameAgentHandle noImageFrame "u" (.capturePage "r")).toParent = [] ∧
    (frameAgentHandle noImageFrame "u" (.capturePage "r")).toChildren = [.capturePage "r"] ∧
    (frameAgentHandle noImageFrame "u" (.ping "r")).toParent = [.pong "r" false "u"] ∧
    (frameAgentHandle noImageFrame "u" (.ping "r")).toChildren = [.ping "r"] :=
  C6_amended_no_match noImageFrame "u" "r" rfl

/-- C3: whenever some recorded readiness announcement has
`hasImage = true`, the find succeeds, and `pingIframe` returns that (first
matching) announcement immediately: nothing is registered and no message is
broadcast. -/
theorem C3_probe_short_circuit (readyFrames : List ReadyFrame) (rid : String) :
    ((∃ g ∈ readyFrames, g.hasImage = true) →
      (readyFrames.find? (fun f => f.hasImage)).isSome = true) ∧
    (∀ f, readyFrames.find? (fun f => f.hasImage) = some f →
      f ∈ readyFrames ∧ f.hasImage = true ∧
        pingIframeStart readyFrames rid
          = { immediateResult := some f, registered := false, broadcast := [] }) := by
  constructor
  · rintro ⟨g, hg, hgi⟩
    cases hfind : readyFrames.find? (fun f => f.hasImage) with
    | some f => rfl
    | none => exact absurd hgi (by simpa using List.find?_eq_none.mp hfind g hg)
  · intro f hf
    refine ⟨List.mem_of_find?_eq_some hf, List.find?_some hf, ?_⟩
    simp [pingIframeStart, hf]

/-- An image-bearing readiness announcement used by concrete instances. -/
def readyA : ReadyFrame := { hasImage := true, url := "frameA" }

/-- A second, distinct image-bearing readiness announcement. -/
def readyB : ReadyFrame := { hasImage := true, url := "frameB" }

/-- Witness for C3 at a one-announcement readiness list. -/
theorem C3_probe_short_circuit_witness :
    ([readyA].find? (fun f => f.hasImage)).isSome = true ∧
    (readyA ∈ [readyA] ∧ readyA.hasImage = true ∧
      pingIframeStart [readyA] "ping_1"
        = { immediateResult := some readyA, registered := false, broadcast := [] }) :=
  ⟨(C3_probe_short_circuit [readyA] "ping_1").1 ⟨readyA, by simp, rfl⟩,
   (C3_probe_short_circuit [readyA] "ping_1").2 readyA rfl⟩

/-- C4 counterexample: with two image-bearing announcements recorded, the
probe's timeout fallback resolves with the FIRST recorded one, while the
last known image-bearing announcement is a different one. -/
theorem C4_counterexample :
    (stepPing initPingReq (.timeoutFires [readyA, readyB])).outcome
      = some (.ok readyA) ∧
    lastImageAnnouncement [readyA, readyB] = some readyB ∧
    readyA ≠ readyB :=
  ⟨rfl, rfl, by decide⟩

/-- C4 amended: when the 5000 ms probe timer fires, the probe falls back to
the FIRST recorded readiness announcement reporting an image-bearing frame,
resolving with it and removing the pending entry; only when no such
announcement exists does it reject with the probe-failure error. -/
theorem C4_amended_timeout_fallback (readyFrames : List ReadyFrame) :
    PING_TIMEOUT_MS = 5000 ∧
    ((∃ g ∈ readyFrames, g.hasImage = true) →
      ∃ f, readyFrames.find? (fun g => g.hasImage) = some f ∧
        f ∈ readyFrames ∧ f.hasImage = true ∧
        (stepPing initPingReq (.timeoutFires readyFrames)).outcome = some (.ok f) ∧
        (stepPing initPingReq (.timeoutFires readyFrames)).pendingEntry = false) ∧
    ((∀ g ∈ readyFrames, g.hasImage = false) →
      (stepPing initPingReq (.timeoutFires readyFrames)).outcome
        = some (.error PROBE_FAILURE_MSG) ∧
      (stepPing initPingReq (.timeoutFires readyFrames)).pendingEntry = false) := by
  refine ⟨rfl, ?_, ?_⟩
  · rintro ⟨g, hg, hgi⟩
    cases hfind : readyFrames.find? (fun f => f.hasImage) with
    | none => exact absurd hgi (by simpa using List.find?_eq_none.mp hfind g hg)
    | some f =>
        refine ⟨f, rfl, List.mem_of_find?_eq_some hfind, List.find?_some hfind, ?_, ?_⟩ <;>
          simp [stepPing, initPingReq, settlePing, hfind]
  · intro hall
    have hfind : readyFrames.find? (fun f => f.hasImage) = none :=
      List.find?_eq_none.mpr (fun x hx => by simp [hall x hx])
    constructor <;> simp [stepPing, initPingReq, settlePing, hfind]

/-- Witness for the amended C4: one image-bearing announcement, and a list
with none. -/
theorem C4_amended_timeout_fallback_witness :
    (∃ f, [readyA].find? (fun g => g.hasImage) = some f ∧
      f ∈ [readyA] ∧ f.hasImage = true ∧
      (stepPing initPingReq (.timeoutFires [readyA])).outcome = some (.ok f) ∧
      (stepPing initPingReq (.timeoutFires [readyA])).pendingEntry = false) ∧
    ((stepPing initPingReq (.timeoutFires [ReadyFrame.mk false "frameC"])).outcome
        = some (.error PROBE_FAILURE_MSG) ∧
      (stepPing initPingReq (.timeoutFires [ReadyFrame.mk false "frameC"])).pendingEntry
        = false) :=
  ⟨(C4_amended_timeout_fallback [readyA]).2.1 ⟨readyA, by simp, rfl⟩,
   (C4_amended_timeout_fallback [ReadyFrame.mk false "frameC"]).2.2 (by decide)⟩

/-! ## At-most-once settlement (C2) -/

/-- States a registered capture request can reach: untouched, or settled
exactly once with its entry gone and its timer disarmed. -/
def CaptureReachInv (s : CaptureReqState) : Prop :=
  (s.settleCount = 0 ∧ s.pendingEntry = true ∧ s.resolvedFlag = false ∧
    s.timeoutActive = true)
  ∨ (s.settleCount = 1 ∧ s.pendingEntry = false ∧ s.timeoutActive = false)

theorem stepCapture_preserves_inv (s : CaptureReqState) (e : CaptureEvent)
    (h : CaptureReachInv s) : CaptureReachInv (stepCapture s e) := by
  cases e with
  | response success data error pv t =>
      rcases h with ⟨h0, hp, hr, ht⟩ | ⟨h1, hp, ht⟩
      · cases success <;>
          simp [stepCapture, settleWith, CaptureReachInv, hp, hr, h0]
      · simp [stepCapture, CaptureReachInv, hp, h1, ht]
  | timeoutFires =>
      rcases h with ⟨h0, hp, hr, ht⟩ | ⟨h1, hp, ht⟩
      · simp [stepCapture, settleWith, CaptureReachInv, ht, hr, h0]
      · simp [stepCapture, CaptureReachInv, ht, h1, hp]

theorem foldl_stepCapture_inv (evs : List CaptureEvent) :
    ∀ s : CaptureReqState, CaptureReachInv s →
      CaptureReachInv (evs.foldl stepCapture s) := by
  induction evs with
  | nil => exact fun s hs => hs
  | cons e rest ih =>
      exact fun s hs => ih (stepCapture s e) (stepCapture_preserves_inv s e hs)

/-- States a registered ping request can reach. -/
def PingReachInv (s : PingReqState) : Prop :=
  (s.settleCount = 0 ∧ s.pendingEntry = true ∧ s.timeoutActive = true)
  ∨ (s.settleCount = 1 ∧ s.pendingEntry = false ∧ s.timeoutActive = false)

theorem stepPing_preserves_inv (s : PingReqState) (e : PingEvent)
    (h : PingReachInv s) : PingReachInv (stepPing s e) := by
  cases e with
  | pong hasImage url =>
      rcases h with ⟨h0, hp, ht⟩ | ⟨h1, hp, ht⟩
      · cases hasImage <;>
          simp [stepPing, settlePing, PingReachInv, hp, ht, h0]
      · simp [stepPing, PingReachInv, hp, h1, ht]
  | timeoutFires readyFrames =>
      rcases h with ⟨h0, hp, ht⟩ | ⟨h1, hp, ht⟩
      · cases hfind : readyFrames.find? (fun f => f.hasImage) <;>
          simp [stepPing, settlePing, PingReachInv, ht, h0, hfind]
      · simp [stepPing, PingReachInv, ht, h1, hp]

theorem foldl_stepPing_inv (evs : List PingEvent) :
    ∀ s : PingReqState, PingReachInv s → PingReachInv (evs.foldl stepPing s) := by
  induction evs with
  | nil => exact fun s hs => hs
  | cons e rest ih =>
      exact fun s hs => ih (stepPing s e) (stepPing_preserves_inv s e hs)

/-- C2: a registered pending request is settled at most once, for every
sequence of matching responses and timer firings, on both the capture
channel and the ping channel; moreover once a request is settled (entry
removed, timer disarmed) every further event leaves its state unchanged. -/
theorem C2_at_most_one_settlement :
    (∀ evs : List CaptureEvent, (runCapture evs).settleCount ≤ 1) ∧
    (∀ evs : List PingEvent, (runPing evs).settleCount ≤ 1) ∧
    (∀ (s : CaptureReqState) (e : CaptureEvent),
      s.pendingEntry = false → s.timeoutActive = false → stepCapture s e = s) ∧
    (∀ (s : PingReqState) (e : PingEvent),
      s.pendingEntry = false → s.timeoutActive = false → stepPing s e = s) := by
  refine ⟨?_, ?_, ?_, ?_⟩
  · intro evs
    have hinv := foldl_stepCapture_inv evs initCaptureReq (Or.inl ⟨rfl, rfl, rfl, rfl⟩)
    show (evs.foldl stepCapture initCaptureReq).settleCount ≤ 1
    rcases hinv with ⟨h, _⟩ | ⟨h, _⟩ <;> omega
  · intro evs
    have hinv := foldl_stepPing_inv evs initPingReq (Or.inl ⟨rfl, rfl, rfl⟩)
    show (evs.foldl stepPing initPingReq).settleCount ≤ 1
    rcases hinv with ⟨h, _⟩ | ⟨h, _⟩ <;> omega
  · intro s e hp ht
    cases e <;> simp [stepCapture, hp, ht]
  · intro s e hp ht
    cases e <;> simp [stepPing, hp, ht]

/-- Witness for C2: a double timer firing settles once; a settled capture
state absorbs a late response. -/
theorem C2_at_most_one_settlement_witness :
    (runCapture [.timeoutFires, .timeoutFires]).settleCount ≤ 1 ∧
    stepCapture
        { pendingEntry := false, resolvedFlag := false, timeoutActive := false,
          outcome := some (.rejectedWith "Capture timeout"), settleCount := 1 }
        (.response true ⟨"d", 1, 1⟩ none none 0)
      = { pendingEntry := false, resolvedFlag := false, timeoutActive := false,
          outcome := some (.rejectedWith "Capture timeout"), settleCount := 1 } :=
  ⟨C2_at_most_one_settlement.1 [.timeoutFires, .timeoutFires],
   C2_at_most_one_settlement.2.2.1 _ _ rfl rfl⟩

/-! ## Pagination loop bounds (C1, C5) -/

theorem runLoop_pages_inv (pl : Nat) (os : List IterOracle) :
    ∀ s : LoopState, s.pages.length = s.captured → s.captured ≤ pl →
      (runLoop pl s os).1.pages.length = (runLoop pl s os).1.captured ∧
      (runLoop pl s os).1.captured ≤ pl := by
  induction os with
  | nil => exact fun s h1 h2 => ⟨h1, h2⟩
  | cons o rest ih =>
      intro s h1 h2
      simp only [runLoop]
      split
      next => exact ⟨h1, h2⟩
      next =>
        split
        next => exact ⟨h1, h2⟩
        next hlt =>
          split
          next pageData hcap =>
            split
            next => exact ⟨by simp [h1], not_le.mp hlt⟩
            next hlt2 =>
              split
              next => exact ih _ (by simp [h1]) (not_le.mp hlt)
              next msg hmsg =>
                split
                next => exact ⟨by simp [h1], not_le.mp hlt⟩
                next =>
                  split
                  next => exact ih _ (by simp [h1]) (not_le.mp hlt)
                  next => exact ⟨by simp [h1], not_le.mp hlt⟩
          next e hcap =>
            split
            next => exact ⟨h1, h2⟩
            next =>
              split
              next => exact ih _ h1 h2
              next => exact ⟨h1, h2⟩

/-- C1: starting from the loop entry state of `startCapture` (`captured = 0`
and, by the action button's dispatch guard, an empty session list), every
run of the pagination loop ends with at most `pageLimit` pages in the
session, for every page limit and every sequence of iteration outcomes. -/
theorem C1_pages_at_most_pageLimit (pageLimit : Nat) (os : List IterOracle) :
    ((runLoop pageLimit initLoopState os).1.pages).length ≤ pageLimit := by
  have h := runLoop_pages_inv pageLimit os initLoopState rfl (Nat.zero_le _)
  omega

/-- A concrete successful capture result. -/
def capOk : CaptureResult :=
  { data := "img", width := 600, height := 800, pageNumber := 1, timestamp := 0 }

/-- Iteration in which the advance control reports itself disabled. -/
def oracleDisabled : IterOracle :=
  { runningAtTop := true, capture := .ok capOk, nextPage := .lastPage,
    recoverNext := .ok }

/-- Iteration in which the advance control is absent, also during the
recovery attempt. -/
def oracleAbsent : IterOracle :=
  { runningAtTop := true, capture := .ok capOk, nextPage := .noButton,
    recoverNext := .noButton }

/-- C5 counterexample: with the advance control ABSENT before the limit is
reached, the loop ends through the recovery-failure path with an error
status, not with the Done success status the claim requires for both
cases. -/
theorem C5_counterexample :
    (runLoop 10 initLoopState [oracleAbsent]).2 = .recoveryFailed ∧
    (runLoop 10 initLoopState [oracleAbsent]).1.lastStatus
      = .errorStatus "No Next button" ∧
    (runLoop 10 initLoopState [oracleAbsent]).1.lastStatus ≠ .doneSuccess :=
  ⟨rfl, rfl, by decide⟩

/-- C5 amended: when the advance control reports itself DISABLED
(`Last page`) before the limit is reached, the loop ends as successful
completion with the pages captured so far; when the control is ABSENT
(`No Next button`) the loop shows a per-page error and, the recovery
advance failing too, terminates through the failure path. -/
theorem C5_amended_end_of_document (pl : Nat) (s : LoopState) (o : IterOracle)
    (rest : List IterOracle) (p : CaptureResult)
    (hrun : o.runningAtTop = true) (hcap : o.capture = .ok p)
    (hlt : s.captured + 1 < pl) :
    (o.nextPage = .lastPage →
      runLoop pl s (o :: rest)
        = ({ pages := s.pages ++ [p], captured := s.captured + 1,
             lastStatus := .doneSuccess }, .lastPageDone)) ∧
    (o.nextPage = .noButton → o.recoverNext ≠ .ok →
      runLoop pl s (o :: rest)
        = ({ pages := s.pages ++ [p], captured := s.captured + 1,
             lastStatus := .errorStatus "No Next button" }, .recoveryFailed)) := by
  have h1 : ¬ pl ≤ s.captured := by omega
  have h2 : ¬ pl ≤ s.captured + 1 := by omega
  constructor
  · intro hnext
    simp [runLoop, hrun, hcap, hnext, nextPageThrows, h1, h2]
  · intro hnext hrec
    cases hre : o.recoverNext with
    | ok => exact absurd hre hrec
    | lastPage =>
        simp [runLoop, hrun, hcap, hnext, nextPageThrows, h1, h2, hre]
    | noButton =>
        simp [runLoop, hrun, hcap, hnext, nextPageThrows, h1, h2, hre]

/-- Witness for the amended C5 at concrete one-iteration runs. -/
theorem C5_amended_end_of_document_witness :
    runLoop 10 initLoopState [oracleDisabled]
      = ({ pages := [capOk], captured := 1, lastStatus := .doneSuccess },
         .lastPageDone) ∧
    runLoop 10 initLoopState [oracleAbsent]
      = ({ pages := [capOk], captured := 1,
           lastStatus := .errorStatus "No Next button" }, .recoveryFailed) :=
  ⟨(C5_amended_end_of_document 10 initLoopState oracleDisabled [] capOk
      rfl rfl (by decide)).1 rfl,
   (C5_amended_end_of_document 10 initLoopState oracleAbsent [] capOk
      rfl rfl (by decide)).2 rfl (by decide)⟩

end VitalSourcePdf
